import Mathlib

/-
Verification of the stack-operation lifecycle coordinator and prior-instance
resolver of the cloudformation-deploy package.

The JavaScript sources are shallowly embedded: callback-passing code becomes
pure functions over explicit state, the mutable progress record (stackData)
becomes the structure StackData, provider calls become environment
parameters carrying their results, and the per-event callback becomes an
explicit invocation trace.  Errors are an inductive type OpError whose
rendering errMessage mirrors the util.format strings of the source.
-/

set_option autoImplicit false

deriving instance DecidableEq for Except

namespace CfnDeploy

/-- Constant from src/lib/constants.js: resourceType.STACK. -/
def resourceTypeSTACK : String := "AWS::CloudFormation::Stack"

/-- Constant from src/lib/constants.js: tag.STACK_BASE_NAME. -/
def tagSTACK_BASE_NAME : String := "cloudformation-deploy:stackBaseName"

/-- Constant from src/lib/constants.js: tag.STACK_NAME. -/
def tagSTACK_NAME : String := "cloudformation-deploy:stackName"

/-- Constant from src/lib/constants.js: type.CREATE_STACK. -/
def typeCreateStack : String := "create"

/-- Constant from src/lib/constants.js: type.DELETE_STACK. -/
def typeDeleteStack : String := "delete"

/-- Constant from src/lib/constants.js: type.UPDATE_STACK. -/
def typeUpdateStack : String := "update"

/-- Constant from src/lib/constants.js: onDeployFailure.DELETE. -/
def onDeployFailureDELETE : String := "DELETE"

/-- Constant from src/lib/constants.js: onDeployFailure.DO_NOTHING. -/
def onDeployFailureDO_NOTHING : String := "DO_NOTHING"

/-- Constant from src/lib/constants.js: priorInstance.DELETE. -/
def priorInstanceDELETE : String := "DELETE"

/-- A CloudFormation stack event as read by the coordinator: only the
ResourceType and ResourceStatus properties are inspected by the code. -/
structure StackEvent where
  ResourceType : String
  ResourceStatus : String
deriving DecidableEq, Repr

/-- The mutable progress record of CloudFormationOperation.prototype.getStackData:
stackName, stackId (absent until creation returns), the latest status (starts
unset) and the chronological event log. -/
structure StackData where
  stackName : String
  stackId : Option String
  status : Option String
  events : List StackEvent
deriving DecidableEq, Repr

/-- CloudFormationOperation.prototype.getStackData. -/
def getStackData (stackName : String) (stackId : Option String) : StackData :=
  { stackName := stackName, stackId := stackId, status := none, events := [] }

/-- The slice of the operation configuration object consulted by the embedded
code paths.  String-valued policy flags mirror the source, which compares them
with === against the constants. -/
structure Config where
  baseName : String := ""
  deployId : String := ""
  stackName : Option String := none
  onDeployFailure : String := "DELETE"
  priorInstance : String := "DELETE"
  hasOnEventFn : Bool := true
  hasPostCreationFn : Bool := true
  deleteChangeSet : Bool := true
  clientOptions : Option String := none
deriving DecidableEq, Repr

/-- Errors produced by the embedded code.  Each constructor corresponds to one
new Error(...) site in the source; errMessage renders the util.format text. -/
inductive OpError where
  /-- new Error(util.format('Call to X failed: %s', error)) wrapping a raw
  provider error, as in the CloudFormation client class methods. -/
  | awsCall (callName : String) (detail : String)
  /-- new Error(util.format('No such stack: %s', stackId)) from describeStack. -/
  | noSuchStack (stackId : Option String)
  /-- new Error(JSON.stringify(errors)) from the validateConfig stages. -/
  | validation (violations : List String)
  /-- new Error('Stack operation failed on the following event: ...') from
  awaitCompletion. -/
  | stackOpFailedOnEvent (event : StackEvent)
  /-- new Error('Stack operation failed, but could not identify failure
  event.') from awaitCompletion. -/
  | stackOpFailedUnclassified
  /-- new Error(util.format('<context message>: %s', error.stack)) from the
  deploy and update awaitCompletion stage wrappers. -/
  | wrapped (contextText : String) (cause : OpError)
  /-- An error produced by caller-supplied code such as postCreationFn. -/
  | fromCaller (detail : String)
deriving DecidableEq, Repr

/-- Whether a list of characters begins with the given pattern. -/
def leadsWith (pat l : List Char) : Bool :=
  l.take pat.length == pat

/-- Substring test: the model of the JavaScript regular expression test
/PAT/.test(s) for a literal pattern PAT. -/
def containsSub (s pat : String) : Bool :=
  s.toList.tails.any (fun t => leadsWith pat.toList t)

/-- The test used to select a failure event in awaitCompletion:
event.ResourceStatus && /FAILED/.test(event.ResourceStatus). -/
def matchesFAILED (s : String) : Bool :=
  containsSub s "FAILED"

/-- JSON.stringify of a stack event in property insertion order, as embedded
in the failure-event error message. -/
def jsonOfEvent (e : StackEvent) : String :=
  "\x7b\"ResourceType\":\"" ++ e.ResourceType ++ "\",\"ResourceStatus\":\""
    ++ e.ResourceStatus ++ "\"\x7d"

/-- JSON.stringify of the validation error list. -/
def jsonOfStrings (l : List String) : String :=
  "[" ++ String.intercalate "," (l.map (fun s => "\"" ++ s ++ "\"")) ++ "]"

/-- The message text of each error, following the util.format patterns of the
source.  A wrapped error embeds error.stack of its cause, which in Node begins
with the cause message. -/
def errMessage : OpError → String
  | .awsCall callName detail => "Call to " ++ callName ++ " failed: " ++ detail
  | .noSuchStack (some stackId) => "No such stack: " ++ stackId
  | .noSuchStack none => "No such stack: undefined"
  | .validation violations => jsonOfStrings violations
  | .stackOpFailedOnEvent event =>
      "Stack operation failed on the following event: " ++ jsonOfEvent event
  | .stackOpFailedUnclassified =>
      "Stack operation failed, but could not identify failure event."
  | .wrapped contextText cause => contextText ++ "Error: " ++ errMessage cause
  | .fromCaller detail => detail

/-- Generic model of lodash _.dropRightWhile: drop elements from the tail
while the predicate holds. -/
def dropRightWhile {α : Type} (p : α → Bool) (l : List α) : List α :=
  (l.reverse.dropWhile p).reverse

/-- The newEvents computed by updateEventData: events.slice(stackData.events.length),
the positional suffix of the freshly fetched full history. -/
def newEventsOf (sd : StackData) (events : List StackEvent) : List StackEvent :=
  events.drop sd.events.length

/-- The status assignment of updateEventData: drop non-stack events from the
tail of the new suffix and, if any events remain, take the ResourceStatus of
the last one; otherwise leave the status unchanged. -/
def stackStatusAfter (sd : StackData) (events : List StackEvent) : Option String :=
  match (dropRightWhile
      (fun e => e.ResourceType != resourceTypeSTACK) (newEventsOf sd events)).getLast? with
  | some e => some e.ResourceStatus
  | none => sd.status

/-- The record update performed by a successful poll of updateEventData:
replace the stored events with the fresh list and recompute the status. -/
def stepOk (sd : StackData) (events : List StackEvent) : StackData :=
  { sd with events := events, status := stackStatusAfter sd events }

/-- CloudFormationOperation.prototype.updateEventData.  The argument is the
result of this.cloudFormation.describeStackEvents (the full chronological
history, or an already-wrapped error).  On success it returns the mutated
record together with the list of events passed one by one, in order, to
config.onEventFn (the invocation trace; the source fires them only when
onEventFn is a function, which configuration defaulting guarantees).  On a
fetch error it calls back with the error: no mutation, no invocations. -/
def updateEventData (sd : StackData) (fetched : Except OpError (List StackEvent)) :
    Except OpError (StackData × List StackEvent) :=
  match fetched with
  | .error e => .error e
  | .ok events => .ok (stepOk sd events, newEventsOf sd events)

/-- Pagination of CloudFormation.prototype.describeStackEvents: concatenate
the pages (each fetch result) and abort on the first page error, wrapping it
in the call name. -/
def collectEventPages : List (Except String (List StackEvent)) →
    Except OpError (List StackEvent)
  | [] => .ok []
  | .error raw :: _ => .error (.awsCall "describeStackEvents" raw)
  | .ok page :: rest => (collectEventPages rest).map (fun tail => page ++ tail)

/-- CloudFormation.prototype.describeStackEvents: pages arrive in reverse
chronological order and the concatenation is reversed into chronological
order before being handed to the caller. -/
def describeStackEvents (pages : List (Except String (List StackEvent))) :
    Except OpError (List StackEvent) :=
  (collectEventPages pages).map List.reverse

/-- Membership of the record status in a list of terminal statuses, as tested
by lodash _.includes; an unset status (undefined) is never a member. -/
def statusIn (status : Option String) (l : List String) : Bool :=
  match status with
  | none => false
  | some s => l.contains s

/-- The isComplete truth test of CloudFormationOperation.prototype.awaitCompletion:
the terminal-state set per operation type, with the CREATE set depending on the
onDeployFailure policy; any type other than create or delete falls into the
update branch, as in the source else-chain. -/
def isComplete (type : String) (config : Config) (status : Option String) : Bool :=
  if type == typeCreateStack then
    if config.onDeployFailure == onDeployFailureDELETE then
      statusIn status ["CREATE_COMPLETE", "DELETE_COMPLETE", "DELETE_FAILED"]
    else
      statusIn status ["CREATE_COMPLETE", "CREATE_FAILED"]
  else if type == typeDeleteStack then
    statusIn status ["DELETE_COMPLETE", "DELETE_FAILED"]
  else
    statusIn status ["UPDATE_COMPLETE", "UPDATE_ROLLBACK_COMPLETE", "UPDATE_ROLLBACK_FAILED"]

/-- The final classification of awaitCompletion once the loop has stopped:
success exactly on the per-type success status, and otherwise an error built
from the first stored event whose ResourceStatus matches /FAILED/, or an
unclassified failure when no such event exists. -/
def awaitClassify (type : String) (sd : StackData) : Option OpError :=
  if type == typeCreateStack && sd.status == some "CREATE_COMPLETE" then none
  else if type == typeDeleteStack && sd.status == some "DELETE_COMPLETE" then none
  else if type == typeUpdateStack && sd.status == some "UPDATE_COMPLETE" then none
  else
    some (match sd.events.find? (fun e => matchesFAILED e.ResourceStatus) with
      | some ev => .stackOpFailedOnEvent ev
      | none => .stackOpFailedUnclassified)

/-- The observable outcome of one run of the awaitCompletion polling loop over
a finite prefix of poll results: the resolution (none while the loop is still
waiting for further polls; some none for success; some (some e) for an error),
the final record, the onEventFn invocation trace, and the number of completed
sleep-and-fetch polls. -/
structure AwaitOutcome where
  resolution : Option (Option OpError)
  stackData : StackData
  callbackTrace : List StackEvent
  pollCount : Nat
deriving DecidableEq, Repr

/-- CloudFormationOperation.prototype.awaitCompletion as driven by async.until:
the truth test runs before each iteration, so a record that is already
terminal resolves with zero polls; otherwise each iteration sleeps one
progressCheckIntervalInSeconds interval and runs updateEventData with the next
fetch result, aborting on a fetch error and classifying the terminal status
once the test passes. -/
def awaitRun (type : String) (config : Config) :
    List (Except OpError (List StackEvent)) → StackData → AwaitOutcome
  | fetches, sd =>
    if isComplete type config sd.status then
      { resolution := some (awaitClassify type sd), stackData := sd,
        callbackTrace := [], pollCount := 0 }
    else
      match fetches with
      | [] =>
          { resolution := none, stackData := sd, callbackTrace := [], pollCount := 0 }
      | f :: rest =>
          match updateEventData sd f with
          | .error e =>
              { resolution := some (some e), stackData := sd,
                callbackTrace := [], pollCount := 1 }
          | .ok (sd', trace) =>
              let r := awaitRun type config rest sd'
              { resolution := r.resolution, stackData := r.stackData,
                callbackTrace := trace ++ r.callbackTrace, pollCount := r.pollCount + 1 }

/-- The record reached after a given list of successful polls, each carrying
the full event history fetched at that poll. -/
def iterPolls (sd : StackData) : List (List StackEvent) → StackData
  | [] => sd
  | events :: rest => iterPolls (stepOk sd events) rest

/-- The error-message improvement wrapper of the Deploy.prototype.deploy
awaitCompletion stage: adds context for a failed create left in place under
the DO_NOTHING policy, and distinguishes a cleanup deletion that worked from
one that failed as well. -/
def deployAwaitStageError (config : Config) (sd : StackData) :
    Option OpError → Option OpError
  | none => none
  | some err =>
    if config.onDeployFailure == onDeployFailureDO_NOTHING
        && sd.status == some "CREATE_FAILED" then
      some (.wrapped
        "Stack creation failed. Per configuration no attempt was made to delete the failed stack: "
        err)
    else if sd.status == some "DELETE_FAILED" then
      some (.wrapped "Stack creation failed. Deletion of the stack failed as well: " err)
    else if sd.status == some "DELETE_COMPLETE" then
      some (.wrapped "Stack creation failed. The failed stack was deleted: " err)
    else
      some err

/-- The error-message improvement wrapper of the Update.prototype.update
awaitCompletion stage: distinguishes a rollback that succeeded from a rollback
that failed as well. -/
def updateAwaitStageError (sd : StackData) : Option OpError → Option OpError
  | none => none
  | some err =>
    if sd.status == some "UPDATE_ROLLBACK_COMPLETE" then
      some (.wrapped "Stack update failed. The rollback succeeded: " err)
    else if sd.status == some "UPDATE_ROLLBACK_FAILED" then
      some (.wrapped "Stack update failed. The rollback failed as well: " err)
    else
      some err

/-- Processing of a sequence of invocations by a callback wrapped with lodash
_.once, the at-most-once resolution guard applied to every coordinator and
workflow completion callback: the flag records whether the underlying callback
has already fired, and the returned list is the sequence of arguments with
which the underlying callback is actually invoked. -/
def onceProcess {α : Type} : Bool → List α → List α
  | _, [] => []
  | true, _ :: rest => onceProcess true rest
  | false, a :: rest => a :: onceProcess true rest

/-- A freshly wrapped _.once callback, before any invocation. -/
def lodashOnce {α : Type} (calls : List α) : List α :=
  onceProcess false calls

/-- Utility from src/lib/utilities.js: replacement of every character outside
[-a-z0-9] (case-insensitive) with a dash. -/
def sanitizeNameChar (c : Char) : Char :=
  if c == '-' || c.isAlpha || c.isDigit then c else '-'

/-- utilities.determineStackName: an update configuration carries an explicit
stackName; a deploy configuration builds baseName-deployId and sanitizes it. -/
def determineStackName (config : Config) : String :=
  match config.stackName with
  | some name => name
  | none => String.map sanitizeNameChar (config.baseName ++ "-" ++ config.deployId)

/-- utilities.baseNameMatchesStackName: stackName.indexOf(baseName + "-") === 0,
the literal dash-delimited prefix test. -/
def baseNameMatchesStackName (baseName stackName : String) : Bool :=
  leadsWith (baseName ++ "-").toList stackName.toList

/-- A provider client handle.  Object identity of new AWS.CloudFormation(...)
is modelled by a fresh allocation number; the options record which
configuration the client was constructed from (none when the constructor was
invoked without arguments). -/
structure AwsCfnClient where
  allocId : Nat
  options : Option String
deriving DecidableEq, Repr

/-- The CloudFormation utility class instance: its own configuration and its
own client handle. -/
structure CloudFormationHandle where
  config : Config
  client : AwsCfnClient
deriving DecidableEq, Repr

/-- Client construction in the CloudFormation class constructor: settings via
config.clientOptions when that is an object, otherwise ambient credentials. -/
def newAwsCfnClient (options : Option String) (fresh : Nat) : AwsCfnClient × Nat :=
  ({ allocId := fresh, options := options }, fresh + 1)

/-- The CloudFormation class constructor: stores the configuration and creates
this instance's own client, with no module-level state involved. -/
def mkCloudFormation (config : Config) (fresh : Nat) : CloudFormationHandle × Nat :=
  let p := newAwsCfnClient config.clientOptions fresh
  ({ config := config, client := p.1 }, p.2)

/-- A CloudFormationOperation instance (the parent class of Deploy, Update and
PreviewUpdate): holds the configuration and this workflow's CloudFormation
handle, created in the constructor. -/
structure CloudFormationOperationInst where
  config : Config
  cloudFormation : CloudFormationHandle
deriving DecidableEq, Repr

/-- The CloudFormationOperation constructor: this.cloudFormation is a new
CloudFormation instance built from this workflow's own configuration. -/
def mkCloudFormationOperation (config : Config) (fresh : Nat) :
    CloudFormationOperationInst × Nat :=
  let p := mkCloudFormation config fresh
  ({ config := config, cloudFormation := p.1 }, p.2)

/-- A stack summary as returned by the listStacks pages. -/
structure StackSummary where
  StackName : String
  StackId : String
deriving DecidableEq, Repr

/-- A stack tag.  Structural equality of the Key and Value pair models the
JSON.stringify comparison performed by the resolver (which depends on property
order, constant here). -/
structure StackTag where
  Key : String
  Value : String
deriving DecidableEq, Repr

/-- A full stack description as returned by describeStacks. -/
structure StackDescription where
  StackName : String
  StackId : String
  Tags : List StackTag
deriving DecidableEq, Repr

/-- The provider responses consumed by one run of describePriorStacks: the
successive listStacks page results (the last list element is the page with no
NextToken) and the describeStacks response for each stack id. -/
structure PriorEnv where
  pages : List (Except String (List StackSummary))
  describe : String → Except String (List StackDescription)

/-- CloudFormation.prototype.describeStack applied to a raw describeStacks
response: wrap a call error, report No such stack on an empty Stacks array,
and otherwise return the first description. -/
def describeStackOutcome (stackId : Option String)
    (raw : Except String (List StackDescription)) : Except OpError StackDescription :=
  match raw with
  | .error e => .error (.awsCall "describeStacks" e)
  | .ok [] => .error (.noSuchStack stackId)
  | .ok (d :: _) => .ok d

/-- The per-summary filter of describePriorStacks: the dash-delimited base
name prefix match, excluding the freshly created stack id (which may still be
undefined in a caller that never set it). -/
def summaryFilter (baseName : String) (createdStackId : Option String)
    (s : StackSummary) : Bool :=
  baseNameMatchesStackName baseName s.StackName && (some s.StackId != createdStackId)

/-- The listStacks pagination loop of describePriorStacks: each page is
filtered and concatenated; a page error aborts with the wrapped error (whose
message names describeStacks, verbatim from the source). -/
def collectSummaries (baseName : String) (createdStackId : Option String) :
    List (Except String (List StackSummary)) → Except OpError (List StackSummary)
  | [] => .ok []
  | .error raw :: _ => .error (.awsCall "describeStacks" raw)
  | .ok page :: rest =>
      (collectSummaries baseName createdStackId rest).map
        (fun tail => page.filter (summaryFilter baseName createdStackId) ++ tail)

/-- The authoritative tag confirmation of describePriorStacks: some tag equals
the exact pair of the STACK_BASE_NAME key and the queried base name. -/
def isPriorStack (baseName : String) (d : StackDescription) : Bool :=
  d.Tags.any (fun t => t == { Key := tagSTACK_BASE_NAME, Value := baseName })

/-- The async.eachSeries phase of describePriorStacks: describe each surviving
summary strictly in order, push the descriptions that carry the base-name tag,
and stop at the first describe error, in which case the final callback
receives that error together with the descriptions accumulated so far. -/
def eachSeriesDescribe (env : PriorEnv) (baseName : String)
    (acc : List StackDescription) :
    List StackSummary → Option OpError × List StackDescription
  | [] => (none, acc)
  | s :: rest =>
    match describeStackOutcome (some s.StackId) (env.describe s.StackId) with
    | .error e => (some e, acc)
    | .ok d =>
        eachSeriesDescribe env baseName
          (acc ++ (if isPriorStack baseName d then [d] else [])) rest

/-- The continuation of describePriorStacks after pagination: a page error is
passed to the callback with no descriptions; no surviving summaries resolves
with the empty description list; otherwise the describe series runs. -/
def describePhase2 (env : PriorEnv) (baseName : String) :
    Except OpError (List StackSummary) → Option OpError × List StackDescription
  | .error e => (some e, [])
  | .ok summaries =>
    if summaries.isEmpty then (none, [])
    else eachSeriesDescribe env baseName [] summaries

/-- CloudFormation.prototype.describePriorStacks.  The pair is what the final
callback receives: the error argument and the stackDescriptions argument. -/
def describePriorStacks (baseName : String) (createdStackId : Option String)
    (env : PriorEnv) : Option OpError × List StackDescription :=
  describePhase2 env baseName (collectSummaries baseName createdStackId env.pages)

/-- A named stage of an async.series pipeline over workflow state σ.  The run
function returns none when the stage never invokes its callback (an await loop
given too few poll results), and otherwise the mutated state with the optional
error passed to the stage callback. -/
structure Stage (σ : Type) where
  name : String
  run : σ → Option (σ × Option OpError)

/-- The async.series sequencer: run the stages in order, short-circuiting at
the first stage whose callback receives an error. -/
def runStages {σ : Type} : List (Stage σ) → σ → Option (σ × Option OpError)
  | [], st => some (st, none)
  | s :: rest, st =>
    match s.run st with
    | none => none
    | some (st', some e) => some (st', some e)
    | some (st', none) => runStages rest st'

/-- The deploy workflow result object. -/
structure DeployResult where
  errors : List OpError
  createStack : StackData
  describeStack : Option StackDescription
  deleteStack : List StackData
deriving DecidableEq, Repr

/-- The provider and caller responses consumed by one run of
Deploy.prototype.deploy.  Poll entries are the results handed to
updateEventData, that is the output of the describeStackEvents assembly. -/
structure DeployEnv where
  validationErrors : List String
  validateTemplateResult : Except String Unit
  createStackResult : Except String String
  createPolls : List (Except OpError (List StackEvent))
  describeStackResult : Except String (List StackDescription)
  postCreationResult : Option OpError
  priorEnv : PriorEnv
  deleteStackCalls : String → Option String
  deletePolls : String → List (Except OpError (List StackEvent))

/-- The result object initialised at the top of Deploy.prototype.deploy. -/
def initDeployResult (config : Config) : DeployResult :=
  { errors := [], createStack := getStackData (determineStackName config) none,
    describeStack := none, deleteStack := [] }

/-- Deploy.prototype.deleteStack for one prior stack: start the deletion, then
await completion of the DELETE operation on the same record. -/
def deleteOnePriorStack (config : Config) (env : DeployEnv)
    (d : StackDescription) : Option (StackData × Option OpError) :=
  let sd := getStackData d.StackName (some d.StackId)
  match env.deleteStackCalls d.StackId with
  | some raw => some (sd, some (.awsCall "deleteStack" raw))
  | none =>
    let r := awaitRun typeDeleteStack config (env.deletePolls d.StackId) sd
    match r.resolution with
    | none => none
    | some e => some (r.stackData, e)

/-- The async.eachSeries loop of Deploy.prototype.deletePriorStacks: each
description's fresh record is pushed onto result.deleteStack before its
deletion runs, and the first deletion error aborts the remaining ones. -/
def deletePriorStacksLoop (config : Config) (env : DeployEnv)
    (st : DeployResult) :
    List StackDescription → Option (DeployResult × Option OpError)
  | [] => some (st, none)
  | d :: rest =>
    match deleteOnePriorStack config env d with
    | none => none
    | some (sd, some e) =>
        some ({ st with deleteStack := st.deleteStack ++ [sd] }, some e)
    | some (sd, none) =>
        deletePriorStacksLoop config env
          { st with deleteStack := st.deleteStack ++ [sd] } rest

/-- Deploy.prototype.deletePriorStacks: resolve the prior instances and delete
them one at a time; a resolution error is passed straight through, with the
partially resolved descriptions discarded by this caller. -/
def deployPriorOutcome (config : Config) (env : DeployEnv) (st : DeployResult) :
    Option OpError × List StackDescription → Option (DeployResult × Option OpError)
  | (some e, _) => some (st, some e)
  | (none, descriptions) =>
    if descriptions.isEmpty then some (st, none)
    else deletePriorStacksLoop config env st descriptions

/-- Dispatch of Deploy.prototype.deletePriorStacks on the resolver outcome. -/
def deployDeletePriorStage (config : Config) (env : DeployEnv)
    (st : DeployResult) : Option (DeployResult × Option OpError) :=
  deployPriorOutcome config env st
    (describePriorStacks config.baseName st.createStack.stackId env.priorEnv)

/-- The stages of Deploy.prototype.deploy, in source order. -/
def deployStages (config : Config) (env : DeployEnv) : List (Stage DeployResult) :=
  [ { name := "validateConfig",
      run := fun st => some (st,
        match env.validationErrors with
        | [] => none
        | v :: vs => some (.validation (v :: vs))) },
    { name := "validateTemplate",
      run := fun st => some (st,
        match env.validateTemplateResult with
        | .ok _ => none
        | .error raw => some (.awsCall "validateTemplate" raw)) },
    { name := "createStack",
      run := fun st =>
        match env.createStackResult with
        | .error raw => some (st, some (.awsCall "createStack" raw))
        | .ok stackId =>
            some ({ st with
              createStack := { st.createStack with stackId := some stackId } }, none) },
    { name := "awaitCompletion",
      run := fun st =>
        let r := awaitRun typeCreateStack config env.createPolls st.createStack
        match r.resolution with
        | none => none
        | some e =>
            some ({ st with createStack := r.stackData },
              deployAwaitStageError config r.stackData e) },
    { name := "describeStack",
      run := fun st =>
        match describeStackOutcome st.createStack.stackId env.describeStackResult with
        | .error e => some ({ st with describeStack := none }, some e)
        | .ok d => some ({ st with describeStack := some d }, none) },
    { name := "postCreationFn",
      run := fun st =>
        if config.hasPostCreationFn then some (st, env.postCreationResult)
        else some (st, none) },
    { name := "deletePriorStacks",
      run := fun st =>
        if config.priorInstance != priorInstanceDELETE then some (st, none)
        else deployDeletePriorStage config env st } ]

/-- Deploy.prototype.deploy: run the stages and always hand the accumulated
result object to the completion callback, pushing any stage error onto
result.errors first. -/
def deployRun (config : Config) (env : DeployEnv) :
    Option (DeployResult × Option OpError) :=
  match runStages (deployStages config env) (initDeployResult config) with
  | none => none
  | some (st, e) => some ({ st with errors := st.errors ++ e.toList }, e)

/-- The update workflow result object. -/
structure UpdateResult where
  errors : List OpError
  updateStack : StackData
  describeStack : Option StackDescription
deriving DecidableEq, Repr

/-- The provider responses consumed by one run of Update.prototype.update. -/
structure UpdateEnv where
  validationErrors : List String
  validateTemplateResult : Except String Unit
  updateStackResult : Except String String
  updatePolls : List (Except OpError (List StackEvent))
  describeStackResult : Except String (List StackDescription)

/-- Modelled from the spec: CloudFormation.prototype.updateStack is absent
from the provided sources (only its caller in update.js is present); per the
external-interface and error-handling sections, the call returns the new
stack id and a failure is wrapped with the name of the failing call. -/
def updateStackCallOutcome (raw : Except String String) : Except OpError String :=
  match raw with
  | .error e => .error (.awsCall "updateStack" e)
  | .ok stackId => .ok stackId

/-- The stages of Update.prototype.update, in source order. -/
def updateStages (config : Config) (env : UpdateEnv) : List (Stage UpdateResult) :=
  [ { name := "validateConfig",
      run := fun st => some (st,
        match env.validationErrors with
        | [] => none
        | v :: vs => some (.validation (v :: vs))) },
    { name := "validateTemplate",
      run := fun st => some (st,
        match env.validateTemplateResult with
        | .ok _ => none
        | .error raw => some (.awsCall "validateTemplate" raw)) },
    { name := "updateStack",
      run := fun st =>
        match updateStackCallOutcome env.updateStackResult with
        | .error e => some (st, some e)
        | .ok stackId =>
            some ({ st with
              updateStack := { st.updateStack with stackId := some stackId } }, none) },
    { name := "awaitCompletion",
      run := fun st =>
        let r := awaitRun typeUpdateStack config env.updatePolls st.updateStack
        match r.resolution with
        | none => none
        | some e =>
            some ({ st with updateStack := r.stackData },
              updateAwaitStageError r.stackData e) },
    { name := "describeStack",
      run := fun st =>
        match describeStackOutcome st.updateStack.stackId env.describeStackResult with
        | .error e => some ({ st with describeStack := none }, some e)
        | .ok d => some ({ st with describeStack := some d }, none) } ]

/-- Update.prototype.update: run the stages and always hand back the result,
pushing any stage error onto result.errors first. -/
def updateRun (config : Config) (env : UpdateEnv) :
    Option (UpdateResult × Option OpError) :=
  match runStages (updateStages config env)
      { errors := [], updateStack := getStackData (determineStackName config) none,
        describeStack := none } with
  | none => none
  | some (st, e) => some ({ st with errors := st.errors ++ e.toList }, e)

/-- A change-set description: only the Status property steers the poll loop;
the proposed changes ride along opaquely. -/
structure ChangeSet where
  Status : String
  Changes : List String
deriving DecidableEq, Repr

/-- The isComplete truth test of PreviewUpdate.prototype.awaitCompletion: no
change-set description seen yet means not complete; otherwise its status must
be CREATE_COMPLETE or FAILED. -/
def changeSetComplete (cs : Option ChangeSet) : Bool :=
  match cs with
  | none => false
  | some c => ["CREATE_COMPLETE", "FAILED"].contains c.Status

/-- The observable outcome of the change-set poll loop over a finite prefix of
describeChangeSet results. -/
structure ChangeSetOutcome where
  resolution : Option (Except OpError (Option ChangeSet))
  pollCount : Nat
deriving DecidableEq, Repr

/-- PreviewUpdate.prototype.awaitCompletion: an async.until loop whose body
fetches the change-set description (changeSet = data or the previous value on
a falsy response) and which resolves with the description once its status is
terminal, or with the wrapped error of a failed fetch (the describeChangeSet
client call is absent from the provided sources; modelled from the spec as a
status fetch wrapped with the call name on failure). -/
def changeSetAwaitRun :
    List (Except String (Option ChangeSet)) → Option ChangeSet → ChangeSetOutcome
  | fetches, cs =>
    if changeSetComplete cs then { resolution := some (.ok cs), pollCount := 0 }
    else
      match fetches with
      | [] => { resolution := none, pollCount := 0 }
      | .error raw :: _ =>
          { resolution := some (.error (.awsCall "describeChangeSet" raw)),
            pollCount := 1 }
      | .ok data :: rest =>
          let r := changeSetAwaitRun rest (data.orElse (fun _ => cs))
          { resolution := r.resolution, pollCount := r.pollCount + 1 }

/-- The preview-update workflow result object. -/
structure PreviewResult where
  errors : List OpError
  changeSet : Option ChangeSet
deriving DecidableEq, Repr

/-- The provider responses consumed by one run of
PreviewUpdate.prototype.previewUpdate (the createChangeSet and deleteChangeSet
client calls are absent from the provided sources; modelled from the spec as
calls whose failures are wrapped with the call name). -/
structure PreviewEnv where
  validationErrors : List String
  validateTemplateResult : Except String Unit
  createChangeSetResult : Except String Unit
  changeSetPolls : List (Except String (Option ChangeSet))
  deleteChangeSetResult : Except String Unit

/-- The stages of PreviewUpdate.prototype.previewUpdate, in source order. -/
def previewStages (config : Config) (env : PreviewEnv) : List (Stage PreviewResult) :=
  [ { name := "validateConfig",
      run := fun st => some (st,
        match env.validationErrors with
        | [] => none
        | v :: vs => some (.validation (v :: vs))) },
    { name := "validateTemplate",
      run := fun st => some (st,
        match env.validateTemplateResult with
        | .ok _ => none
        | .error raw => some (.awsCall "validateTemplate" raw)) },
    { name := "createChangeSet",
      run := fun st =>
        match env.createChangeSetResult with
        | .error raw => some (st, some (.awsCall "createChangeSet" raw))
        | .ok _ => some (st, none) },
    { name := "awaitCompletion",
      run := fun st =>
        let r := changeSetAwaitRun env.changeSetPolls none
        match r.resolution with
        | none => none
        | some (.error e) => some ({ st with changeSet := none }, some e)
        | some (.ok cs) => some ({ st with changeSet := cs }, none) },
    { name := "deleteChangeSet",
      run := fun st =>
        if !config.deleteChangeSet then some (st, none)
        else
          match env.deleteChangeSetResult with
          | .error raw => some (st, some (.awsCall "deleteChangeSet" raw))
          | .ok _ => some (st, none) } ]

/-- PreviewUpdate.prototype.previewUpdate: run the stages and always hand back
the result, pushing any stage error onto result.errors first. -/
def previewRun (config : Config) (env : PreviewEnv) :
    Option (PreviewResult × Option OpError) :=
  match runStages (previewStages config env) { errors := [], changeSet := none } with
  | none => none
  | some (st, e) => some ({ st with errors := st.errors ++ e.toList }, e)

/-- A stack-level event fixture. -/
def evStack (s : String) : StackEvent :=
  { ResourceType := resourceTypeSTACK, ResourceStatus := s }

/-- A nested-resource event fixture. -/
def evResource (s : String) : StackEvent :=
  { ResourceType := "AWS::EC2::Instance", ResourceStatus := s }

/-- A deploy configuration fixture with the delete-on-failure policy. -/
def fxConfigDelete : Config := { onDeployFailure := "DELETE" }

/-- A fresh progress record fixture. -/
def fxSd : StackData := getStackData "alpha-1" (some "stack-id")

/-- Four successive full event histories: a creation that fails on a nested
resource and is rolled back by deletion, reaching DELETE_COMPLETE on the
fourth poll. -/
def fxPollHistories : List (List StackEvent) :=
  [ [evStack "CREATE_IN_PROGRESS"],
    [evStack "CREATE_IN_PROGRESS", evResource "CREATE_FAILED"],
    [evStack "CREATE_IN_PROGRESS", evResource "CREATE_FAILED",
      evStack "DELETE_IN_PROGRESS"],
    [evStack "CREATE_IN_PROGRESS", evResource "CREATE_FAILED",
      evStack "DELETE_IN_PROGRESS", evStack "DELETE_COMPLETE"] ]

/-- A record fixture that is already terminal for a DELETE operation, with a
stored failure event. -/
def fxSdTerminal : StackData :=
  { stackName := "alpha-1", stackId := some "stack-id",
    status := some "DELETE_FAILED", events := [evResource "CREATE_FAILED"] }

/-- A record fixture at terminal status DELETE_COMPLETE with no stored
events. -/
def fxSdDeleted : StackData :=
  { stackName := "test-stack", stackId := some "sid",
    status := some "DELETE_COMPLETE", events := [] }

/-- A record fixture at terminal status CREATE_FAILED whose event log holds a
nested-resource failure between two stack-level events. -/
def fxSdWithFailure : StackData :=
  { stackName := "test-stack", stackId := some "sid",
    status := some "CREATE_FAILED",
    events := [evStack "CREATE_IN_PROGRESS", evResource "CREATE_FAILED",
      evStack "CREATE_FAILED"] }

/-- A record fixture at terminal status DELETE_FAILED. -/
def fxSdDeleteFailed : StackData :=
  { stackName := "test-stack", stackId := some "sid",
    status := some "DELETE_FAILED", events := [] }

/-- A record fixture at terminal status UPDATE_ROLLBACK_COMPLETE. -/
def fxSdRollback : StackData :=
  { stackName := "test-stack", stackId := some "sid",
    status := some "UPDATE_ROLLBACK_COMPLETE", events := [] }

/-- A record fixture at terminal status UPDATE_ROLLBACK_FAILED. -/
def fxSdRollbackFailed : StackData :=
  { stackName := "test-stack", stackId := some "sid",
    status := some "UPDATE_ROLLBACK_FAILED", events := [] }

/-- Prior-stack scenario: summary of the tagged prior stack alpha-a. -/
def fxSummaryA : StackSummary := { StackName := "alpha-a", StackId := "id-a" }

/-- Prior-stack scenario: summary of the prefix-collision stack alphax-b. -/
def fxSummaryB : StackSummary := { StackName := "alphax-b", StackId := "id-b" }

/-- Prior-stack scenario: summary of the tagged prior stack alpha-c. -/
def fxSummaryC : StackSummary := { StackName := "alpha-c", StackId := "id-c" }

/-- Prior-stack scenario: description of alpha-a carrying the base-name tag. -/
def fxDescA : StackDescription :=
  { StackName := "alpha-a", StackId := "id-a",
    Tags := [{ Key := tagSTACK_BASE_NAME, Value := "alpha" }] }

/-- Prior-stack scenario: description of alphax-b, tagged with a different
base name. -/
def fxDescB : StackDescription :=
  { StackName := "alphax-b", StackId := "id-b",
    Tags := [{ Key := tagSTACK_BASE_NAME, Value := "alphax" }] }

/-- Prior-stack scenario: description of alpha-c carrying the base-name tag
after a user tag. -/
def fxDescC : StackDescription :=
  { StackName := "alpha-c", StackId := "id-c",
    Tags := [{ Key := "userTag", Value := "x" },
      { Key := tagSTACK_BASE_NAME, Value := "alpha" }] }

/-- Prior-stack scenario: the description served for each stack id. -/
def fxDescribeF (stackId : String) : StackDescription :=
  if stackId == "id-a" then fxDescA
  else if stackId == "id-c" then fxDescC
  else fxDescB

/-- Prior-stack scenario environment: one listStacks page holding alpha-a,
alphax-b and alpha-c, with every describe call succeeding. -/
def fxPriorEnv : PriorEnv :=
  { pages := [Except.ok [fxSummaryA, fxSummaryB, fxSummaryC]],
    describe := fun stackId => Except.ok [fxDescribeF stackId] }

/-- Resolver-failure environment: the describe call for alpha-c fails after
alpha-a has already been described and matched. -/
def fxC7Env : PriorEnv :=
  { pages := [Except.ok [fxSummaryA, fxSummaryC]],
    describe := fun stackId =>
      if stackId == "id-a" then Except.ok [fxDescA] else Except.error "boom" }

/-- A deploy environment whose configuration validation fails; all provider
responses are benign and must never be consulted. -/
def fxC6DeployEnv : DeployEnv :=
  { validationErrors := ["baseName is required"],
    validateTemplateResult := Except.ok (),
    createStackResult := Except.ok "id-x",
    createPolls := [],
    describeStackResult := Except.ok [],
    postCreationResult := none,
    priorEnv := { pages := [], describe := fun _ => Except.ok [] },
    deleteStackCalls := fun _ => none,
    deletePolls := fun _ => [] }

/-- Helper: a once-wrapped callback that has already fired swallows every
further invocation. -/
theorem onceProcess_fired {α : Type} (l : List α) : onceProcess true l = [] := by
  induction l with
  | nil => rfl
  | cons a t ih => simpa [onceProcess] using ih

/-- Helper: the head of dropWhile is the first element failing the predicate. -/
theorem head?_dropWhile {α : Type} (p : α → Bool) (l : List α) :
    (l.dropWhile p).head? = l.find? (fun a => !p a) := by
  induction l with
  | nil => rfl
  | cons a t ih => cases hpa : p a <;> simp [List.dropWhile, List.find?, hpa, ih]

/-- Helper: the last element of a reversed list is its head. -/
theorem getLast?_rev {α : Type} (l : List α) : l.reverse.getLast? = l.head? := by
  rw [List.getLast?_eq_head?_reverse, List.reverse_reverse]

/-- Helper: the last element kept by dropRightWhile is the last element of the
list failing the predicate, found by searching the reversal. -/
theorem dropRightWhile_getLast {α : Type} (p : α → Bool) (l : List α) :
    (dropRightWhile p l).getLast? = l.reverse.find? (fun a => !p a) := by
  unfold dropRightWhile
  rw [getLast?_rev, head?_dropWhile]

/-- C1: updateEventData computes the newly-seen events as the positional
suffix events[oldLength:] of the fresh full history, replaces the stored
events with the fresh complete list, invokes onEventFn exactly once per
newly-seen event in chronological order (the returned invocation trace, fired
before the status update), and sets status to the ResourceStatus of the last
newly-seen event whose ResourceType is the stack itself, leaving status
unchanged when no new event refers to the stack; a failed fetch passes the
error through with no record mutation and no event invocations. -/
theorem C1_updateEventData :
    (∀ (sd : StackData) (events : List StackEvent),
      updateEventData sd (.ok events) =
        .ok ({ stackName := sd.stackName, stackId := sd.stackId,
               status :=
                 match (events.drop sd.events.length).reverse.find?
                     (fun e => e.ResourceType == resourceTypeSTACK) with
                 | some e => some e.ResourceStatus
                 | none => sd.status,
               events := events },
             events.drop sd.events.length))
    ∧ (∀ (sd : StackData) (err : OpError),
        updateEventData sd (.error err) = .error err) := by
  constructor
  · intro sd events
    have hpred : (fun (e : StackEvent) => !(e.ResourceType != resourceTypeSTACK))
        = (fun e => e.ResourceType == resourceTypeSTACK) := by
      funext e
      simp [bne]
    simp only [updateEventData, stepOk, stackStatusAfter, newEventsOf,
      dropRightWhile_getLast, hpred]
  · intro sd err
    rfl

/-- C8: the completion callback of every coordinator await loop and every
workflow is wrapped in the lodash once guard before any resolution path can
reach it, so a sequence of resolution attempts invokes the underlying
caller-supplied callback at most once, with the first attempt's argument; in
particular a second attempt after resolution never re-invokes it. -/
theorem C8_once_guard :
    (∀ (α : Type) (calls : List α), lodashOnce calls = calls.take 1)
    ∧ (∀ (α : Type) (a b : α) (rest : List α), lodashOnce (a :: b :: rest) = [a]) := by
  constructor
  · intro α calls
    cases calls with
    | nil => rfl
    | cons a rest => simp [lodashOnce, onceProcess, onceProcess_fired]
  · intro α a b rest
    simp [lodashOnce, onceProcess, onceProcess_fired]

/-- C9: every workflow instance constructs its own CloudFormation handle from
its own configuration, whose client is a fresh allocation: two instances
created in the same process never share a client, and each client is built
from its own instance's clientOptions with no module-level state involved. -/
theorem C9_per_instance_client (config1 config2 : Config) (fresh : Nat) :
    ((mkCloudFormationOperation config1 fresh).1.cloudFormation.client
        ≠ (mkCloudFormationOperation config2
            (mkCloudFormationOperation config1 fresh).2).1.cloudFormation.client)
    ∧ (mkCloudFormationOperation config1 fresh).1.cloudFormation.client.options
        = config1.clientOptions
    ∧ (mkCloudFormationOperation config2
        (mkCloudFormationOperation config1 fresh).2).1.cloudFormation.client.options
        = config2.clientOptions
    ∧ (mkCloudFormationOperation config1 fresh).1.cloudFormation.config = config1
    ∧ (mkCloudFormationOperation config1 fresh).1.config = config1 := by
  refine ⟨?_, rfl, rfl, rfl, rfl⟩
  intro h
  have hid : fresh = fresh + 1 := congrArg AwsCfnClient.allocId h
  omega

/-- C10: a record whose status is already terminal for the operation kind
resolves immediately: the async.until truth test runs before the first
iteration, so no sleep happens, no event fetch is consumed, no event callback
fires, and the success or failure classification is computed from the stored
status and events alone. -/
theorem C10_await_immediate (type : String) (config : Config)
    (fetches : List (Except OpError (List StackEvent))) (sd : StackData)
    (h : isComplete type config sd.status = true) :
    awaitRun type config fetches sd =
      { resolution := some (awaitClassify type sd), stackData := sd,
        callbackTrace := [], pollCount := 0 } := by
  unfold awaitRun
  simp [h]

/-- Witness for C10: a DELETE await on a record already at DELETE_FAILED
resolves with zero polls even though a fetch result is available, and
classifies from the stored failure event. -/
theorem C10_witness :
    awaitRun typeDeleteStack fxConfigDelete [Except.ok []] fxSdTerminal =
      { resolution :=
          some (some (OpError.stackOpFailedOnEvent (evResource "CREATE_FAILED"))),
        stackData := fxSdTerminal, callbackTrace := [], pollCount := 0 } := by
  rw [C10_await_immediate typeDeleteStack fxConfigDelete [Except.ok []] fxSdTerminal
    (by decide)]
  decide

/-- Helper: one loop iteration of awaitRun on a non-terminal record with a
successful fetch applies the updateEventData record update, prepends the new
events to the invocation trace, and counts one poll. -/
theorem awaitRun_step (type : String) (config : Config) (o : List StackEvent)
    (rest : List (Except OpError (List StackEvent))) (sd : StackData)
    (h : isComplete type config sd.status = false) :
    awaitRun type config (Except.ok o :: rest) sd =
      { resolution := (awaitRun type config rest (stepOk sd o)).resolution,
        stackData := (awaitRun type config rest (stepOk sd o)).stackData,
        callbackTrace :=
          newEventsOf sd o ++ (awaitRun type config rest (stepOk sd o)).callbackTrace,
        pollCount := (awaitRun type config rest (stepOk sd o)).pollCount + 1 } := by
  rw [awaitRun.eq_def]
  simp [h, updateEventData]

/-- Helper: awaitRun resolves after exactly the number of polls needed to
reach the first terminal status, classifying the record reached there, and
never consumes the remaining fetches. -/
theorem awaitRun_resolves_after (type : String) (config : Config) :
    ∀ (oks : List (List StackEvent)) (sd : StackData)
      (rest : List (Except OpError (List StackEvent))),
      (∀ k, k < oks.length →
        isComplete type config (iterPolls sd (oks.take k)).status = false) →
      isComplete type config (iterPolls sd oks).status = true →
      ((awaitRun type config (oks.map Except.ok ++ rest) sd).resolution
          = some (awaitClassify type (iterPolls sd oks))
        ∧ (awaitRun type config (oks.map Except.ok ++ rest) sd).pollCount = oks.length
        ∧ (awaitRun type config (oks.map Except.ok ++ rest) sd).stackData
            = iterPolls sd oks) := by
  intro oks
  induction oks with
  | nil =>
    intro sd rest _ hterm
    simp only [iterPolls] at hterm ⊢
    rw [List.map_nil, List.nil_append, awaitRun.eq_def]
    simp [hterm]
  | cons o t ih =>
    intro sd rest hk hterm
    have h0 : isComplete type config sd.status = false := by
      simpa [iterPolls] using hk 0 (by simp)
    rw [List.map_cons, List.cons_append, awaitRun_step type config o _ sd h0]
    have hk' : ∀ k, k < t.length →
        isComplete type config (iterPolls (stepOk sd o) (t.take k)).status = false := by
      intro k hklt
      have hx := hk (k + 1) (by simpa using Nat.succ_lt_succ hklt)
      simpa [iterPolls] using hx
    have hterm' : isComplete type config (iterPolls (stepOk sd o) t).status = true := by
      simpa [iterPolls] using hterm
    obtain ⟨h1, h2, h3⟩ := ih (stepOk sd o) rest hk' hterm'
    exact ⟨by simpa [iterPolls] using h1, by simpa using h2, by simpa [iterPolls] using h3⟩

/-- C2: the awaitCompletion terminal sets per operation kind are exactly the
spec table, membership of the status in them is the only stopping condition
(any other status string, recognized or not, means another poll), success is
classified exactly at CREATE_COMPLETE, DELETE_COMPLETE or UPDATE_COMPLETE for
the respective kind, and the loop resolves precisely at the first poll whose
resulting status is terminal. -/
theorem C2_awaitCompletion_terminal_sets :
    (∀ (config : Config) (s : Option String),
      config.onDeployFailure = onDeployFailureDELETE →
      (isComplete typeCreateStack config s = true ↔
        (s = some "CREATE_COMPLETE" ∨ s = some "DELETE_COMPLETE"
          ∨ s = some "DELETE_FAILED")))
    ∧ (∀ (config : Config) (s : Option String),
      config.onDeployFailure = onDeployFailureDO_NOTHING →
      (isComplete typeCreateStack config s = true ↔
        (s = some "CREATE_COMPLETE" ∨ s = some "CREATE_FAILED")))
    ∧ (∀ (config : Config) (s : Option String),
      isComplete typeDeleteStack config s = true ↔
        (s = some "DELETE_COMPLETE" ∨ s = some "DELETE_FAILED"))
    ∧ (∀ (config : Config) (s : Option String),
      isComplete typeUpdateStack config s = true ↔
        (s = some "UPDATE_COMPLETE" ∨ s = some "UPDATE_ROLLBACK_COMPLETE"
          ∨ s = some "UPDATE_ROLLBACK_FAILED"))
    ∧ (∀ (sd : StackData),
      (awaitClassify typeCreateStack sd = none ↔ sd.status = some "CREATE_COMPLETE")
      ∧ (awaitClassify typeDeleteStack sd = none ↔ sd.status = some "DELETE_COMPLETE")
      ∧ (awaitClassify typeUpdateStack sd = none ↔ sd.status = some "UPDATE_COMPLETE"))
    ∧ (∀ (type : String) (config : Config) (sd : StackData)
        (oks : List (List StackEvent))
        (rest : List (Except OpError (List StackEvent))),
      (∀ k, k < oks.length →
        isComplete type config (iterPolls sd (oks.take k)).status = false) →
      isComplete type config (iterPolls sd oks).status = true →
      ((awaitRun type config (oks.map Except.ok ++ rest) sd).resolution
          = some (awaitClassify type (iterPolls sd oks))
        ∧ (awaitRun type config (oks.map Except.ok ++ rest) sd).pollCount = oks.length)) := by
  refine ⟨?_, ?_, ?_, ?_, ?_, ?_⟩
  · intro config s h
    cases s with
    | none => simp [isComplete, statusIn]
    | some v =>
      rw [isComplete, if_pos (by decide)]
      rw [h]
      simp [statusIn, onDeployFailureDELETE]
  · intro config s h
    cases s with
    | none => simp [isComplete, statusIn]
    | some v =>
      rw [isComplete, if_pos (by decide)]
      rw [h]
      simp [statusIn, onDeployFailureDO_NOTHING, onDeployFailureDELETE]
  · intro config s
    cases s with
    | none => simp [isComplete, statusIn]
    | some v =>
      rw [isComplete, if_neg (by decide), if_pos (by decide)]
      simp [statusIn]
  · intro config s
    cases s with
    | none => simp [isComplete, statusIn]
    | some v =>
      rw [isComplete, if_neg (by decide), if_neg (by decide)]
      simp [statusIn]
  · intro sd
    refine ⟨?_, ?_, ?_⟩
    · simp only [awaitClassify, typeCreateStack, typeDeleteStack, typeUpdateStack]
      by_cases h : sd.status = some "CREATE_COMPLETE" <;> simp [h]
    · simp only [awaitClassify, typeCreateStack, typeDeleteStack, typeUpdateStack]
      by_cases h : sd.status = some "DELETE_COMPLETE" <;> simp [h]
    · simp only [awaitClassify, typeCreateStack, typeDeleteStack, typeUpdateStack]
      by_cases h : sd.status = some "UPDATE_COMPLETE" <;> simp [h]
  · intro type config sd oks rest hk hterm
    obtain ⟨h1, h2, _⟩ := awaitRun_resolves_after type config oks sd rest hk hterm
    exact ⟨h1, h2⟩

/-- Witness for C2: a CREATE await under the delete-on-failure policy, over
the four-poll history ending in DELETE_COMPLETE, resolves after exactly four
polls with the classification of the record reached. -/
theorem C2_witness :
    (awaitRun typeCreateStack fxConfigDelete (fxPollHistories.map Except.ok ++ []) fxSd).resolution
        = some (awaitClassify typeCreateStack (iterPolls fxSd fxPollHistories))
      ∧ (awaitRun typeCreateStack fxConfigDelete
          (fxPollHistories.map Except.ok ++ []) fxSd).pollCount = 4 :=
  C2_awaitCompletion_terminal_sets.2.2.2.2.2 typeCreateStack fxConfigDelete fxSd
    fxPollHistories [] (by decide) (by decide)

/-- Helper: a successful find? splits the list around the first element
satisfying the predicate. -/
theorem find?_split {α : Type} (p : α → Bool) :
    ∀ (l : List α) (a : α), l.find? p = some a →
      p a = true ∧ ∃ pre post, l = pre ++ a :: post ∧ ∀ x ∈ pre, p x = false := by
  intro l
  induction l with
  | nil => intro a h; cases h
  | cons b t ih =>
    intro a h
    cases hpb : p b with
    | true =>
      simp only [List.find?, hpb] at h
      injection h with h
      subst h
      exact ⟨hpb, [], t, rfl, by simp⟩
    | false =>
      simp only [List.find?, hpb] at h
      obtain ⟨hpa, pre, post, heq, hpre⟩ := ih a h
      refine ⟨hpa, b :: pre, post, by simp [heq], ?_⟩
      intro x hx
      rcases List.mem_cons.mp hx with rfl | hx2
      · exact hpb
      · exact hpre x hx2

/-- C4 counterexample: at terminal status DELETE_COMPLETE with no stored
failure event, awaitCompletion resolves with the unclassified failure error,
whose message does not name the terminal state reached, contradicting the
claim that the error names the specific terminal state. -/
theorem C4_counterexample :
    fxSdDeleted.status = some "DELETE_COMPLETE"
    ∧ awaitClassify typeCreateStack fxSdDeleted
        = some OpError.stackOpFailedUnclassified
    ∧ containsSub (errMessage OpError.stackOpFailedUnclassified) "DELETE_COMPLETE"
        = false := by
  refine ⟨rfl, rfl, ?_⟩
  decide

/-- C4 (amended): whenever awaitCompletion reaches a non-success terminal
status it resolves with an error built from the first event stored in the
record whose resource-status matches the FAILED pattern, or with the
unclassified-failure error when no stored event matches; the generic message
does not name the terminal state itself. -/
theorem C4_failure_event_classification (type : String) (sd : StackData)
    (err : OpError) (h : awaitClassify type sd = some err) :
    (∃ ev pre post, err = OpError.stackOpFailedOnEvent ev
        ∧ matchesFAILED ev.ResourceStatus = true
        ∧ sd.events = pre ++ ev :: post
        ∧ ∀ x ∈ pre, matchesFAILED x.ResourceStatus = false)
    ∨ (err = OpError.stackOpFailedUnclassified
        ∧ ∀ x ∈ sd.events, matchesFAILED x.ResourceStatus = false) := by
  rw [awaitClassify] at h
  by_cases h1 : (type == typeCreateStack && sd.status == some "CREATE_COMPLETE") = true
  · rw [if_pos h1] at h
    cases h
  rw [if_neg h1] at h
  by_cases h2 : (type == typeDeleteStack && sd.status == some "DELETE_COMPLETE") = true
  · rw [if_pos h2] at h
    cases h
  rw [if_neg h2] at h
  by_cases h3 : (type == typeUpdateStack && sd.status == some "UPDATE_COMPLETE") = true
  · rw [if_pos h3] at h
    cases h
  rw [if_neg h3] at h
  cases hf : sd.events.find? (fun e => matchesFAILED e.ResourceStatus) with
  | some ev =>
    rw [hf] at h
    injection h with h
    obtain ⟨hpa, pre, post, heq, hpre⟩ := find?_split _ sd.events ev hf
    exact Or.inl ⟨ev, pre, post, h.symm, by simpa using hpa, heq,
      fun x hx => by simpa using hpre x hx⟩
  | none =>
    rw [hf] at h
    injection h with h
    refine Or.inr ⟨h.symm, ?_⟩
    intro x hx
    have hnx := List.find?_eq_none.mp hf x hx
    simpa using hnx

/-- Witness for C4 (amended): the classification of a failed creation whose
log holds a nested-resource failure between two stack-level events picks out
exactly that first FAILED-matching event. -/
theorem C4_witness :
    (∃ ev pre post,
        OpError.stackOpFailedOnEvent (evResource "CREATE_FAILED")
            = OpError.stackOpFailedOnEvent ev
        ∧ matchesFAILED ev.ResourceStatus = true
        ∧ fxSdWithFailure.events = pre ++ ev :: post
        ∧ ∀ x ∈ pre, matchesFAILED x.ResourceStatus = false)
    ∨ (OpError.stackOpFailedOnEvent (evResource "CREATE_FAILED")
          = OpError.stackOpFailedUnclassified
        ∧ ∀ x ∈ fxSdWithFailure.events, matchesFAILED x.ResourceStatus = false) :=
  C4_failure_event_classification typeCreateStack fxSdWithFailure
    (OpError.stackOpFailedOnEvent (evResource "CREATE_FAILED")) (by rfl)

/-- C5: for a CREATE operation, reaching DELETE_COMPLETE or DELETE_FAILED is
always classified as an error, and the deploy stage wrapper distinguishes the
cleanup deletion succeeding from it failing; for an UPDATE operation the
update stage wrapper reports the rollback succeeding and the rollback failing
as well, with distinct messages in each pair. -/
theorem C5_cleanup_and_rollback_errors :
    (∀ (sd : StackData),
      sd.status = some "DELETE_COMPLETE" ∨ sd.status = some "DELETE_FAILED" →
      awaitClassify typeCreateStack sd ≠ none)
    ∧ (∀ (config : Config) (sd : StackData) (err : OpError),
      sd.status = some "DELETE_COMPLETE" →
      deployAwaitStageError config sd (some err)
        = some (.wrapped "Stack creation failed. The failed stack was deleted: " err))
    ∧ (∀ (config : Config) (sd : StackData) (err : OpError),
      sd.status = some "DELETE_FAILED" →
      deployAwaitStageError config sd (some err)
        = some (.wrapped
            "Stack creation failed. Deletion of the stack failed as well: " err))
    ∧ (∀ (sd : StackData) (err : OpError),
      sd.status = some "UPDATE_ROLLBACK_COMPLETE" →
      updateAwaitStageError sd (some err)
        = some (.wrapped "Stack update failed. The rollback succeeded: " err))
    ∧ (∀ (sd : StackData) (err : OpError),
      sd.status = some "UPDATE_ROLLBACK_FAILED" →
      updateAwaitStageError sd (some err)
        = some (.wrapped "Stack update failed. The rollback failed as well: " err))
    ∧ (∀ (err : OpError),
      OpError.wrapped "Stack creation failed. The failed stack was deleted: " err
        ≠ OpError.wrapped
            "Stack creation failed. Deletion of the stack failed as well: " err)
    ∧ (∀ (err : OpError),
      OpError.wrapped "Stack update failed. The rollback succeeded: " err
        ≠ OpError.wrapped "Stack update failed. The rollback failed as well: " err) := by
  refine ⟨?_, ?_, ?_, ?_, ?_, ?_, ?_⟩
  · intro sd h
    simp only [awaitClassify, typeCreateStack, typeDeleteStack, typeUpdateStack]
    rcases h with h | h <;> simp [h]
  · intro config sd err h
    simp [deployAwaitStageError, h]
  · intro config sd err h
    simp [deployAwaitStageError, h]
  · intro sd err h
    simp [updateAwaitStageError, h]
  · intro sd err h
    simp [updateAwaitStageError, h]
  · intro err h
    injection h with h1 _
    exact absurd h1 (by decide)
  · intro err h
    injection h with h1 _
    exact absurd h1 (by decide)

/-- Witness for C5: the concrete wrapped errors produced at DELETE_COMPLETE,
DELETE_FAILED, UPDATE_ROLLBACK_COMPLETE and UPDATE_ROLLBACK_FAILED. -/
theorem C5_witness :
    awaitClassify typeCreateStack fxSdDeleted ≠ none
    ∧ deployAwaitStageError fxConfigDelete fxSdDeleted
        (some OpError.stackOpFailedUnclassified)
      = some (.wrapped "Stack creation failed. The failed stack was deleted: "
          OpError.stackOpFailedUnclassified)
    ∧ deployAwaitStageError fxConfigDelete fxSdDeleteFailed
        (some OpError.stackOpFailedUnclassified)
      = some (.wrapped "Stack creation failed. Deletion of the stack failed as well: "
          OpError.stackOpFailedUnclassified)
    ∧ updateAwaitStageError fxSdRollback (some OpError.stackOpFailedUnclassified)
      = some (.wrapped "Stack update failed. The rollback succeeded: "
          OpError.stackOpFailedUnclassified)
    ∧ updateAwaitStageError fxSdRollbackFailed (some OpError.stackOpFailedUnclassified)
      = some (.wrapped "Stack update failed. The rollback failed as well: "
          OpError.stackOpFailedUnclassified) :=
  ⟨C5_cleanup_and_rollback_errors.1 fxSdDeleted (Or.inl rfl),
    C5_cleanup_and_rollback_errors.2.1 fxConfigDelete fxSdDeleted
      OpError.stackOpFailedUnclassified rfl,
    C5_cleanup_and_rollback_errors.2.2.1 fxConfigDelete fxSdDeleteFailed
      OpError.stackOpFailedUnclassified rfl,
    C5_cleanup_and_rollback_errors.2.2.2.1 fxSdRollback
      OpError.stackOpFailedUnclassified rfl,
    C5_cleanup_and_rollback_errors.2.2.2.2.1 fxSdRollbackFailed
      OpError.stackOpFailedUnclassified rfl⟩

/-- Helper: when every listStacks page succeeds, pagination yields the
filtered concatenation of all pages. -/
theorem collectSummaries_ok (b : String) (c : Option String) :
    ∀ (pp : List (List StackSummary)),
      collectSummaries b c (pp.map Except.ok) =
        .ok (pp.join.filter (summaryFilter b c)) := by
  intro pp
  induction pp with
  | nil => rfl
  | cons p t ih => simp [collectSummaries, ih, List.filter_append, Except.map]

/-- Helper: a page-fetch error anywhere in the listStacks sequence aborts the
pagination with the wrapped error. -/
theorem collectSummaries_error (b : String) (c : Option String) (raw : String)
    (rest : List (Except String (List StackSummary))) :
    ∀ (pre : List (List StackSummary)),
      collectSummaries b c (pre.map Except.ok ++ Except.error raw :: rest) =
        .error (.awsCall "describeStacks" raw) := by
  intro pre
  induction pre with
  | nil => rfl
  | cons p t ih => simp [collectSummaries, ih, Except.map]

/-- Helper: the describe series runs through a segment of summaries whose
describes all succeed, appending the tag-confirmed descriptions to the
accumulator, then continues with the remaining summaries. -/
theorem eachSeries_ok_seg (env : PriorEnv) (b : String)
    (descF : String → StackDescription) :
    ∀ (pre : List StackSummary) (acc : List StackDescription)
      (l : List StackSummary),
      (∀ t ∈ pre, env.describe t.StackId = .ok [descF t.StackId]) →
      eachSeriesDescribe env b acc (pre ++ l) =
        eachSeriesDescribe env b
          (acc ++ (pre.map (fun t => descF t.StackId)).filter (isPriorStack b)) l := by
  intro pre
  induction pre with
  | nil =>
    intro acc l _
    simp
  | cons s t ih =>
    intro acc l hok
    have hs := hok s (by simp)
    simp only [List.cons_append, eachSeriesDescribe, hs, describeStackOutcome,
      List.append_eq]
    rw [ih (acc ++ if isPriorStack b (descF s.StackId)
        then [descF s.StackId] else []) l (fun u hu => hok u (by simp [hu]))]
    by_cases hp : isPriorStack b (descF s.StackId) <;>
      simp [hp, List.filter_cons, List.append_assoc]

/-- Helper: prior-instance resolution with every page and describe succeeding
returns exactly the tag-confirmed descriptions of the name-filtered
summaries, in listing order. -/
theorem describePriorStacks_all_ok (b : String) (c : Option String)
    (pp : List (List StackSummary)) (env : PriorEnv)
    (descF : String → StackDescription)
    (hpages : env.pages = pp.map Except.ok)
    (hdesc : ∀ s ∈ pp.join.filter (summaryFilter b c),
      env.describe s.StackId = .ok [descF s.StackId]) :
    describePriorStacks b c env =
      (none, ((pp.join.filter (summaryFilter b c)).map
        (fun s => descF s.StackId)).filter (isPriorStack b)) := by
  rw [describePriorStacks, hpages, collectSummaries_ok]
  by_cases hemp : (pp.join.filter (summaryFilter b c)).isEmpty
  · rw [describePhase2, if_pos hemp]
    rw [List.isEmpty_iff] at hemp
    simp [hemp]
  · rw [describePhase2, if_neg hemp]
    have h := eachSeries_ok_seg env b descF (pp.join.filter (summaryFilter b c))
      [] [] hdesc
    rw [List.append_nil] at h
    rw [h]
    simp [eachSeriesDescribe]

/-- C3: describePriorStacks pages through listStacks until no continuation
token remains and returns exactly the descriptions of stacks whose name has
the base name as a literal dash-delimited prefix, whose id differs from the
just-created stack, and whose full description carries the exact
STACK_BASE_NAME tag for the queried base name. -/
theorem C3_prior_instance_resolution :
    (∀ (b n : String), baseNameMatchesStackName b n = true ↔
      ∃ t : List Char, n.toList = (b ++ "-").toList ++ t)
    ∧ (∀ (b : String) (d : StackDescription), isPriorStack b d = true ↔
      ({ Key := tagSTACK_BASE_NAME, Value := b } : StackTag) ∈ d.Tags)
    ∧ (∀ (b : String) (c : Option String) (s : StackSummary),
      summaryFilter b c s = true ↔
        (baseNameMatchesStackName b s.StackName = true ∧ some s.StackId ≠ c))
    ∧ (∀ (b : String) (c : Option String) (pp : List (List StackSummary))
        (env : PriorEnv) (descF : String → StackDescription),
      env.pages = pp.map Except.ok →
      (∀ s ∈ pp.join.filter (summaryFilter b c),
        env.describe s.StackId = .ok [descF s.StackId]) →
      describePriorStacks b c env =
        (none, ((pp.join.filter (summaryFilter b c)).map
          (fun s => descF s.StackId)).filter (isPriorStack b))) := by
  refine ⟨?_, ?_, ?_, describePriorStacks_all_ok⟩
  · intro b n
    rw [baseNameMatchesStackName, leadsWith, beq_iff_eq]
    constructor
    · intro h
      refine ⟨n.toList.drop (b ++ "-").toList.length, ?_⟩
      conv_lhs => rw [← List.take_append_drop (b ++ "-").toList.length n.toList]
      rw [h]
    · rintro ⟨t, ht⟩
      rw [ht, List.take_left]
  · intro b d
    simp [isPriorStack]
  · intro b c s
    simp [summaryFilter]

/-- Witness for C3: among stacks alpha-a, alphax-b and alpha-c, where the
created stack has a different id, the resolver returns exactly the
descriptions of alpha-a and alpha-c: alphax-b fails the dash-delimited prefix
test despite the raw prefix match. -/
theorem C3_witness :
    describePriorStacks "alpha" (some "id-new") fxPriorEnv =
      (none, [fxDescA, fxDescC]) := by
  rw [C3_prior_instance_resolution.2.2.2 "alpha" (some "id-new")
    [[fxSummaryA, fxSummaryB, fxSummaryC]] fxPriorEnv fxDescribeF rfl
    (fun s _ => rfl)]
  decide

/-- C7 counterexample: when the describe call for the second candidate fails,
the resolver's callback receives the error together with the description
already accumulated for the first candidate, so partial results do accompany
the error, contradicting the claim that they are not returned. -/
theorem C7_counterexample :
    describePriorStacks "alpha" (some "id-new") fxC7Env
      = (some (OpError.awsCall "describeStacks" "boom"), [fxDescA])
    ∧ (describePriorStacks "alpha" (some "id-new") fxC7Env).2 ≠ [] := by
  exact ⟨by decide, by decide⟩

/-- C7 (amended): any page fetch or describe failure aborts the resolution
with that error; a page failure is accompanied by no descriptions, while a
describe failure is accompanied by the descriptions accumulated before it,
which the deploy workflow's deletePriorStacks caller discards on error. -/
theorem C7_abort_on_failure :
    (∀ (b : String) (c : Option String) (pre : List (List StackSummary))
        (raw : String) (rest : List (Except String (List StackSummary)))
        (describeF : String → Except String (List StackDescription)),
      describePriorStacks b c
          { pages := pre.map Except.ok ++ Except.error raw :: rest,
            describe := describeF }
        = (some (.awsCall "describeStacks" raw), []))
    ∧ (∀ (b : String) (c : Option String) (env : PriorEnv)
        (descF : String → StackDescription) (pre : List StackSummary)
        (s : StackSummary) (rest : List StackSummary) (raw : String),
      collectSummaries b c env.pages = .ok (pre ++ s :: rest) →
      (∀ t ∈ pre, env.describe t.StackId = .ok [descF t.StackId]) →
      env.describe s.StackId = .error raw →
      describePriorStacks b c env =
        (some (.awsCall "describeStacks" raw),
          (pre.map (fun t => descF t.StackId)).filter (isPriorStack b)))
    ∧ (∀ (config : Config) (env : DeployEnv) (st : DeployResult) (e : OpError)
        (d : List StackDescription),
      describePriorStacks config.baseName st.createStack.stackId env.priorEnv
          = (some e, d) →
      deployDeletePriorStage config env st = some (st, some e)) := by
  refine ⟨?_, ?_, ?_⟩
  · intro b c pre raw rest describeF
    rw [describePriorStacks]
    dsimp only
    rw [collectSummaries_error, describePhase2]
  · intro b c env descF pre s rest raw hcol hpre hs
    rw [describePriorStacks, hcol, describePhase2]
    rw [if_neg (by cases pre <;> simp)]
    rw [eachSeries_ok_seg env b descF pre [] (s :: rest) hpre]
    simp only [eachSeriesDescribe, hs, describeStackOutcome, List.nil_append]
  · intro config env st e d h
    rw [deployDeletePriorStage, h, deployPriorOutcome]

/-- Witness for C7 (amended): the describe failure for alpha-c aborts the
resolution with the wrapped error alongside the single already-confirmed
description. -/
theorem C7_witness :
    describePriorStacks "alpha" (some "id-new") fxC7Env =
      (some (.awsCall "describeStacks" "boom"),
        ([fxSummaryA].map (fun t => fxDescribeF t.StackId)).filter
          (isPriorStack "alpha")) :=
  C7_abort_on_failure.2.1 "alpha" (some "id-new") fxC7Env fxDescribeF
    [fxSummaryA] fxSummaryC [] "boom" (by decide) (by decide) (by decide)

/-- Helper: async.series short-circuits: appending further stages behind a
failing prefix never runs them, while a clean prefix hands its state on. -/
theorem runStages_append {σ : Type} (xs ys : List (Stage σ)) :
    ∀ (st : σ),
      runStages (xs ++ ys) st =
        match runStages xs st with
        | none => none
        | some (st', some e) => some (st', some e)
        | some (st', none) => runStages ys st' := by
  induction xs with
  | nil => intro st; simp [runStages]
  | cons s t ih =>
    intro st
    cases hs : s.run st with
    | none => simp [runStages, hs]
    | some pr =>
      obtain ⟨st', oe⟩ := pr
      cases oe with
      | none => simp [runStages, hs, ih]
      | some e => simp [runStages, hs]

/-- Helper: a quantity no stage modifies is preserved across the whole
pipeline. -/
theorem runStages_preserves {σ : Type} (f : σ → List OpError) :
    ∀ (stages : List (Stage σ)),
      (∀ s ∈ stages, ∀ x y oe, s.run x = some (y, oe) → f y = f x) →
      ∀ (st st' : σ) (e : Option OpError),
        runStages stages st = some (st', e) → f st' = f st := by
  intro stages
  induction stages with
  | nil =>
    intro _ st st' e h
    simp [runStages] at h
    rw [← h.1]
  | cons s t ih =>
    intro hpres st st' e h
    cases hs : s.run st with
    | none => simp [runStages, hs] at h
    | some pr =>
      obtain ⟨y, oe⟩ := pr
      have hy : f y = f st := hpres s (by simp) st y oe hs
      cases oe with
      | some e2 =>
        simp [runStages, hs] at h
        rw [← h.1, hy]
      | none =>
        simp [runStages, hs] at h
        rw [ih (fun s2 hs2 => hpres s2 (by simp [hs2])) y st' e h, hy]

/-- Helper: the prior-stack deletion series only appends to
result.deleteStack, leaving result.errors alone. -/
theorem deletePriorStacksLoop_errors (config : Config) (env : DeployEnv) :
    ∀ (descs : List StackDescription) (st y : DeployResult) (oe : Option OpError),
      deletePriorStacksLoop config env st descs = some (y, oe) →
      y.errors = st.errors := by
  intro descs
  induction descs with
  | nil =>
    intro st y oe h
    simp [deletePriorStacksLoop] at h
    rw [← h.1]
  | cons d t ih =>
    intro st y oe h
    cases hd : deleteOnePriorStack config env d with
    | none => simp [deletePriorStacksLoop, hd] at h
    | some pr =>
      obtain ⟨sd, oe2⟩ := pr
      cases oe2 with
      | some e2 =>
        simp [deletePriorStacksLoop, hd] at h
        rw [← h.1]
      | none =>
        simp [deletePriorStacksLoop, hd] at h
        rw [ih _ _ _ h]

/-- Helper: the deletePriorStacks stage leaves result.errors alone. -/
theorem deployPriorStage_errors (config : Config) (env : DeployEnv) :
    ∀ (st y : DeployResult) (oe : Option OpError),
      deployDeletePriorStage config env st = some (y, oe) →
      y.errors = st.errors := by
  intro st y oe h
  rw [deployDeletePriorStage] at h
  cases hd : describePriorStacks config.baseName st.createStack.stackId env.priorEnv with
  | mk oerr descs =>
    rw [hd] at h
    cases oerr with
    | some e =>
      simp [deployPriorOutcome] at h
      rw [← h.1]
    | none =>
      by_cases hemp : descs.isEmpty
      · simp [deployPriorOutcome, hemp] at h
        rw [← h.1]
      · simp [deployPriorOutcome, hemp] at h
        exact deletePriorStacksLoop_errors config env descs st y oe h

/-- Helper: no deploy stage modifies result.errors; only the final callback
pushes there. -/
theorem deployStages_preserve_errors (config : Config) (env : DeployEnv) :
    ∀ s ∈ deployStages config env, ∀ (x y : DeployResult) (oe : Option OpError),
      s.run x = some (y, oe) → y.errors = x.errors := by
  intro s hs x y oe h
  simp only [deployStages, List.mem_cons, List.mem_singleton] at hs
  rcases hs with rfl | rfl | rfl | rfl | rfl | rfl | rfl | hfalse
  · simp at h
    rw [← h.1]
  · simp at h
    rw [← h.1]
  · simp only at h
    cases hc : env.createStackResult with
    | error raw => rw [hc] at h; simp at h; rw [← h.1]
    | ok stackId => rw [hc] at h; simp at h; rw [← h.1]
  · simp only at h
    cases hr : (awaitRun typeCreateStack config env.createPolls x.createStack).resolution with
    | none => rw [hr] at h; simp at h
    | some e => rw [hr] at h; simp at h; rw [← h.1]
  · simp only at h
    cases hdo : describeStackOutcome x.createStack.stackId env.describeStackResult with
    | error e => rw [hdo] at h; simp at h; rw [← h.1]
    | ok d => rw [hdo] at h; simp at h; rw [← h.1]
  · simp only at h
    by_cases hp : config.hasPostCreationFn
    · rw [if_pos hp] at h
      simp at h
      rw [← h.1]
    · rw [if_neg hp] at h
      simp at h
      rw [← h.1]
  · simp only at h
    by_cases hp : (config.priorInstance != priorInstanceDELETE) = true
    · rw [if_pos hp] at h
      simp at h
      rw [← h.1]
    · rw [if_neg hp] at h
      exact deployPriorStage_errors config env x y oe h
  · cases hfalse

/-- Helper: no update stage modifies result.errors. -/
theorem updateStages_preserve_errors (config : Config) (env : UpdateEnv) :
    ∀ s ∈ updateStages config env, ∀ (x y : UpdateResult) (oe : Option OpError),
      s.run x = some (y, oe) → y.errors = x.errors := by
  intro s hs x y oe h
  simp only [updateStages, List.mem_cons, List.mem_singleton] at hs
  rcases hs with rfl | rfl | rfl | rfl | rfl | hfalse
  · simp at h
    rw [← h.1]
  · simp at h
    rw [← h.1]
  · simp only at h
    cases hc : updateStackCallOutcome env.updateStackResult with
    | error e => rw [hc] at h; simp at h; rw [← h.1]
    | ok stackId => rw [hc] at h; simp at h; rw [← h.1]
  · simp only at h
    cases hr : (awaitRun typeUpdateStack config env.updatePolls x.updateStack).resolution with
    | none => rw [hr] at h; simp at h
    | some e => rw [hr] at h; simp at h; rw [← h.1]
  · simp only at h
    cases hdo : describeStackOutcome x.updateStack.stackId env.describeStackResult with
    | error e => rw [hdo] at h; simp at h; rw [← h.1]
    | ok d => rw [hdo] at h; simp at h; rw [← h.1]
  · cases hfalse

/-- Helper: no preview-update stage modifies result.errors. -/
theorem previewStages_preserve_errors (config : Config) (env : PreviewEnv) :
    ∀ s ∈ previewStages config env, ∀ (x y : PreviewResult) (oe : Option OpError),
      s.run x = some (y, oe) → y.errors = x.errors := by
  intro s hs x y oe h
  simp only [previewStages, List.mem_cons, List.mem_singleton] at hs
  rcases hs with rfl | rfl | rfl | rfl | rfl | hfalse
  · simp at h
    rw [← h.1]
  · simp at h
    rw [← h.1]
  · simp only at h
    cases hc : env.createChangeSetResult with
    | error raw => rw [hc] at h; simp at h; rw [← h.1]
    | ok u => rw [hc] at h; simp at h; rw [← h.1]
  · simp only at h
    cases hr : (changeSetAwaitRun env.changeSetPolls none).resolution with
    | none => rw [hr] at h; simp at h
    | some r =>
      cases r with
      | error e => rw [hr] at h; simp at h; rw [← h.1]
      | ok cs => rw [hr] at h; simp at h; rw [← h.1]
  · simp only at h
    by_cases hp : (!config.deleteChangeSet) = true
    · rw [if_pos hp] at h
      simp at h
      rw [← h.1]
    · rw [if_neg hp] at h
      cases hc : env.deleteChangeSetResult with
      | error raw => rw [hc] at h; simp at h; rw [← h.1]
      | ok u => rw [hc] at h; simp at h; rw [← h.1]
  · cases hfalse

/-- C6: each workflow is a strict short-circuiting async.series pipeline: the
first stage to fail aborts all subsequent stages, the completion callback
always receives the accumulated partial result object together with the error,
the error is pushed onto the result's errors array, and a fully successful run
returns the same result object with an empty errors array. -/
theorem C6_workflow_pipelines :
    (∀ (σ : Type) (xs ys : List (Stage σ)) (st : σ),
      runStages (xs ++ ys) st =
        match runStages xs st with
        | none => none
        | some (st', some e) => some (st', some e)
        | some (st', none) => runStages ys st')
    ∧ (∀ (config : Config) (env : DeployEnv) (st : DeployResult) (e : Option OpError),
      deployRun config env = some (st, e) → st.errors = e.toList)
    ∧ (∀ (config : Config) (env : UpdateEnv) (st : UpdateResult) (e : Option OpError),
      updateRun config env = some (st, e) → st.errors = e.toList)
    ∧ (∀ (config : Config) (env : PreviewEnv) (st : PreviewResult) (e : Option OpError),
      previewRun config env = some (st, e) → st.errors = e.toList)
    ∧ (∀ (config : Config) (env : DeployEnv) (v : String) (vs : List String),
      env.validationErrors = v :: vs →
      deployRun config env =
        some ({ initDeployResult config with errors := [.validation (v :: vs)] },
          some (.validation (v :: vs))))
    ∧ (∀ (config : Config) (env : UpdateEnv) (v : String) (vs : List String),
      env.validationErrors = v :: vs →
      updateRun config env =
        some ({ errors := [.validation (v :: vs)],
                updateStack := getStackData (determineStackName config) none,
                describeStack := none },
          some (.validation (v :: vs))))
    ∧ (∀ (config : Config) (env : PreviewEnv) (v : String) (vs : List String),
      env.validationErrors = v :: vs →
      previewRun config env =
        some ({ errors := [.validation (v :: vs)], changeSet := none },
          some (.validation (v :: vs)))) := by
  refine ⟨fun σ xs ys st => runStages_append xs ys st, ?_, ?_, ?_, ?_, ?_, ?_⟩
  · intro config env st e h
    cases hr : runStages (deployStages config env) (initDeployResult config) with
    | none => simp [deployRun, hr] at h
    | some pr =>
      obtain ⟨st0, e0⟩ := pr
      simp only [deployRun, hr] at h
      have h0 : st0.errors = [] := by
        have hp := runStages_preserves (fun r => r.errors) (deployStages config env)
          (deployStages_preserve_errors config env) (initDeployResult config) st0 e0 hr
        simpa [initDeployResult] using hp
      simp at h
      rw [← h.1, ← h.2]
      simp [h0]
  · intro config env st e h
    cases hr : runStages (updateStages config env)
        { errors := [], updateStack := getStackData (determineStackName config) none,
          describeStack := none } with
    | none => simp [updateRun, hr] at h
    | some pr =>
      obtain ⟨st0, e0⟩ := pr
      simp only [updateRun, hr] at h
      have h0 : st0.errors = [] := by
        have hp := runStages_preserves (fun r => r.errors) (updateStages config env)
          (updateStages_preserve_errors config env) _ st0 e0 hr
        simpa using hp
      simp at h
      rw [← h.1, ← h.2]
      simp [h0]
  · intro config env st e h
    cases hr : runStages (previewStages config env)
        { errors := [], changeSet := none } with
    | none => simp [previewRun, hr] at h
    | some pr =>
      obtain ⟨st0, e0⟩ := pr
      simp only [previewRun, hr] at h
      have h0 : st0.errors = [] := by
        have hp := runStages_preserves (fun r => r.errors) (previewStages config env)
          (previewStages_preserve_errors config env) _ st0 e0 hr
        simpa using hp
      simp at h
      rw [← h.1, ← h.2]
      simp [h0]
  · intro config env v vs h
    simp [deployRun, runStages, deployStages, h, initDeployResult]
  · intro config env v vs h
    simp [updateRun, runStages, updateStages, h]
  · intro config env v vs h
    simp [previewRun, runStages, previewStages, h]

/-- Witness for C6: a deploy whose configuration validation fails returns the
untouched initial result with exactly that error in its errors array, and no
later stage runs. -/
theorem C6_witness :
    deployRun fxConfigDelete fxC6DeployEnv =
      some ({ initDeployResult fxConfigDelete with
          errors := [OpError.validation ["baseName is required"]] },
        some (OpError.validation ["baseName is required"])) :=
  C6_workflow_pipelines.2.2.2.2.1 fxConfigDelete fxC6DeployEnv
    "baseName is required" [] rfl

end CfnDeploy
